import Mathlib

/-!
# neko: message forwarding, the desktop facade and the serve command

A shallow embedding of three source files of the repository:

* `internal/websocket/handler/send.go` : `sendUnicast`, `sendBroadcast`
* `internal/desktop/xorg.go`           : the methods of `DesktopManagerCtx`
* `server/cmd/serve.go`                : `serve.Init`, `serve.PreRun`, `serve.Start`,
  `serve.Shutdown`

Go interfaces (`types.Session`, `types.SessionManager`, the `xorg` driver package, viper,
the config and manager objects) are structures of operations.  Every call that leaves the
function under study is appended to an explicit trace, and the answer of such a call is
read from the structure that stands for the callee.
-/

namespace Neko

/-! ## Messages -/

/-- A Go `error` value, identified by the text its `Error()` method returns. -/
structure GoError where
  Error : String
  deriving DecidableEq, Repr

/-- Modelled from the spec: the event-kind tags of package `internal/types/event` (spec §6),
whose declaration is not among the source files.  Only the tags are used, never their
wire text. -/
inductive event where
  | SEND_UNICAST
  | SEND_BROADCAST
  | SCREEN_SIZE_CHANGE
  deriving DecidableEq, Repr

namespace message

/-- The struct `message.SendUnicast`, with the fields `sendUnicast` reads and writes.
`Body` is an `interface{}` in Go; it is carried around untouched, so its encoded text
stands for it. -/
structure SendUnicast where
  Event : event
  Sender : String
  Receiver : String
  Subject : String
  Body : String
  deriving DecidableEq, Repr

/-- The struct `message.SendBroadcast`, with the fields `sendBroadcast` reads and writes. -/
structure SendBroadcast where
  Event : event
  Sender : String
  Subject : String
  Body : String
  deriving DecidableEq, Repr

/-- Modelled from the spec: the envelope `SCREEN_SIZE_CHANGE {width, height, rate}` of
spec §6; its Go declaration is not among the source files. -/
structure ScreenSizeChange where
  Event : event
  Width : Int
  Height : Int
  Rate : Int
  deriving DecidableEq, Repr

end message

/-- The values handed to `Session.Send` and `SessionManager.Broadcast` (Go `interface{}`):
one constructor per message struct. -/
inductive Message where
  | unicast (m : message.SendUnicast)
  | broadcast (m : message.SendBroadcast)
  | screen (m : message.ScreenSizeChange)
  deriving DecidableEq, Repr

/-! ## Sessions and the trace of outgoing calls -/

/-- Modelled from the spec: the lifecycle state of a session (spec §3). -/
inductive Lifecycle where
  | Connecting
  | Active
  | Disconnected
  deriving DecidableEq, Repr

/-- The interface `types.Session` as far as the handlers use it: `ID()` and the answer of
`Send(v)`.  `State` is the lifecycle state of spec §3; the handlers never read it.
`transport v` is the error `Send(v)` returns (`none` is Go `nil`). -/
structure Session where
  ID : String
  State : Lifecycle
  transport : Message → Option GoError

/-- One call leaving the handler. -/
inductive Action where
  | Debug (session_id : String) (msg : String)
  | Warn (msg : String)
  | Send (receiver : Session) (v : Message)
  | Broadcast (v : Message) (exclude : List String)

/-- The calls made so far, oldest first. -/
abbrev Trace := List Action

/-- The call `receiver.Send(v)`: it is recorded and answers what the transport answers. -/
def Session.Send (receiver : Session) (v : Message) (t : Trace) : Option GoError × Trace :=
  (receiver.transport v, t ++ [Action.Send receiver v])

/-- The interface `types.SessionManager` as far as the handlers use it.
`Get id` is `none` when Go returns `found = false`. -/
structure SessionManager where
  Get : String → Option Session
  Broadcast : Message → List String → Trace → Trace

/-- The struct `MessageHandlerCtx`: the registry the handlers talk to.  (Its logger is
part of the trace.) -/
structure MessageHandlerCtx where
  sessions : SessionManager

/-- What a handler call leaves behind: the returned error, the value of `*payload` after
the call, and the trace. -/
structure Outcome (α : Type) where
  err : Option GoError
  payload : α
  trace : Trace

/-- The deliveries of a trace: every `Send`, as (session, value), oldest first. -/
def deliveries : Trace → List (Session × Message)
  | [] => []
  | Action.Send r v :: t => (r, v) :: deliveries t
  | _ :: t => deliveries t

/-- The number of `Broadcast` calls recorded in a trace. -/
def broadcastCalls : Trace → Nat
  | [] => 0
  | Action.Broadcast _ _ :: t => broadcastCalls t + 1
  | _ :: t => broadcastCalls t

/-! ## `internal/websocket/handler/send.go` -/

/-- The method `(h *MessageHandlerCtx) sendUnicast(session, payload)`. -/
def MessageHandlerCtx.sendUnicast (h : MessageHandlerCtx) (session : Session)
    (payload : message.SendUnicast) (t : Trace) : Outcome message.SendUnicast :=
  match h.sessions.Get payload.Receiver with
  | none =>
    { err := none
      payload := payload
      trace := t ++ [Action.Debug session.ID "receiver session ID not found"] }
  | some receiver =>
    let r := receiver.Send (Message.unicast
      { Event := event.SEND_UNICAST
        Sender := session.ID
        Receiver := receiver.ID
        Subject := payload.Subject
        Body := payload.Body }) t
    { err := r.1, payload := payload, trace := r.2 }

/-- The method `(h *MessageHandlerCtx) sendBroadcast(session, payload)`. -/
def MessageHandlerCtx.sendBroadcast (h : MessageHandlerCtx) (session : Session)
    (payload : message.SendBroadcast) (t : Trace) : Outcome message.SendBroadcast :=
  let v := Message.broadcast
    { Event := event.SEND_BROADCAST
      Sender := session.ID
      Subject := payload.Subject
      Body := payload.Body }
  let exclude := [session.ID]
  { err := none
    payload := payload
    trace := h.sessions.Broadcast v exclude (t ++ [Action.Broadcast v exclude]) }

/-! ## The session registry behind `types.SessionManager` -/

/-- Modelled from the spec: the Session Registry of spec §4.1, package `internal/session`,
which is not among the source files.  It owns the registered sessions. -/
structure SessionManagerCtx where
  members : List Session

/-- Modelled from the spec: `Get(id) -> (Session, found)` of spec §4.1, the registered
session with that ID if there is one. -/
def SessionManagerCtx.Get (manager : SessionManagerCtx) (id : String) : Option Session :=
  manager.members.find? (fun s => s.ID == id)

/-- Modelled from the spec: one recipient of `Broadcast` (spec §4.1, §4.2): a session that
is not Active or whose ID is excluded is skipped; a failed delivery is logged and skipped. -/
def SessionManagerCtx.deliver (v : Message) (exclude : List String) (t : Trace)
    (s : Session) : Trace :=
  if s.State = Lifecycle.Active ∧ s.ID ∉ exclude then
    match s.Send v t with
    | (none, t1) => t1
    | (some _, t1) => t1 ++ [Action.Warn "broadcasting event has failed"]
  else t

/-- Modelled from the spec: `Broadcast(envelope, excludeIDs)` of spec §4.1 and §4.2: best
effort delivery to every Active session whose ID is not excluded, one after the other; a
failure never stops the delivery to the remaining sessions. -/
def SessionManagerCtx.Broadcast (manager : SessionManagerCtx) (v : Message)
    (exclude : List String) (t : Trace) : Trace :=
  manager.members.foldl (SessionManagerCtx.deliver v exclude) t

/-- The registry seen through the interface `types.SessionManager`. -/
def SessionManagerCtx.toManager (manager : SessionManagerCtx) : SessionManager :=
  { Get := manager.Get, Broadcast := manager.Broadcast }

/-! ## The `xorg` driver package -/

/-- The struct `types.ScreenSize`: width, height and refresh rate. -/
structure ScreenSize where
  Width : Int
  Height : Int
  Rate : Int
  deriving DecidableEq, Repr

/-- The package `internal/desktop/xorg`, the external display and input driver, as a
structure of operations over the state `σ` of the display it drives.  An operation that
returns `error` answers `none` for Go `nil`. -/
structure Xorg (σ : Type) where
  Move : Int → Int → σ → σ
  Scroll : Int → Int → σ → σ
  ButtonDown : Int → σ → Option GoError × σ
  KeyDown : Nat → σ → Option GoError × σ
  ButtonUp : Int → σ → Option GoError × σ
  KeyUp : Nat → σ → Option GoError × σ
  ResetKeys : σ → σ
  GetScreenSize : σ → Option ScreenSize × σ
  ChangeScreenSize : Int → Int → Int → σ → Option GoError × σ
  SetKeyboardLayout : String → σ → σ
  SetKeyboardModifiers : Int → Int → Int → σ → σ

/-- One call into the driver package, with its arguments in order. -/
inductive XorgCall where
  | Move (x y : Int)
  | Scroll (x y : Int)
  | ButtonDown (code : Int)
  | KeyDown (code : Nat)
  | ButtonUp (code : Int)
  | KeyUp (code : Nat)
  | ResetKeys
  | GetScreenSize
  | ChangeScreenSize (width height rate : Int)
  | SetKeyboardLayout (layout : String)
  | SetKeyboardModifiers (NumLock CapsLock ScrollLock : Int)
  deriving DecidableEq, Repr

/-- The shared virtual display: the state behind the driver and the driver calls made so
far, oldest first. -/
structure Display (σ : Type) where
  state : σ
  calls : List XorgCall

namespace xorg

variable {σ : Type}

/-- The call `xorg.Move(x, y)`. -/
def Move (drv : Xorg σ) (x y : Int) (d : Display σ) : Display σ :=
  { state := drv.Move x y d.state, calls := d.calls ++ [XorgCall.Move x y] }

/-- The call `xorg.Scroll(x, y)`. -/
def Scroll (drv : Xorg σ) (x y : Int) (d : Display σ) : Display σ :=
  { state := drv.Scroll x y d.state, calls := d.calls ++ [XorgCall.Scroll x y] }

/-- The call `xorg.ButtonDown(code)`. -/
def ButtonDown (drv : Xorg σ) (code : Int) (d : Display σ) : Option GoError × Display σ :=
  ((drv.ButtonDown code d.state).1,
    { state := (drv.ButtonDown code d.state).2, calls := d.calls ++ [XorgCall.ButtonDown code] })

/-- The call `xorg.KeyDown(code)`. -/
def KeyDown (drv : Xorg σ) (code : Nat) (d : Display σ) : Option GoError × Display σ :=
  ((drv.KeyDown code d.state).1,
    { state := (drv.KeyDown code d.state).2, calls := d.calls ++ [XorgCall.KeyDown code] })

/-- The call `xorg.ButtonUp(code)`. -/
def ButtonUp (drv : Xorg σ) (code : Int) (d : Display σ) : Option GoError × Display σ :=
  ((drv.ButtonUp code d.state).1,
    { state := (drv.ButtonUp code d.state).2, calls := d.calls ++ [XorgCall.ButtonUp code] })

/-- The call `xorg.KeyUp(code)`. -/
def KeyUp (drv : Xorg σ) (code : Nat) (d : Display σ) : Option GoError × Display σ :=
  ((drv.KeyUp code d.state).1,
    { state := (drv.KeyUp code d.state).2, calls := d.calls ++ [XorgCall.KeyUp code] })

/-- The call `xorg.ResetKeys()`. -/
def ResetKeys (drv : Xorg σ) (d : Display σ) : Display σ :=
  { state := drv.ResetKeys d.state, calls := d.calls ++ [XorgCall.ResetKeys] }

/-- The call `xorg.GetScreenSize()`; `none` is the Go `nil` pointer. -/
def GetScreenSize (drv : Xorg σ) (d : Display σ) : Option ScreenSize × Display σ :=
  ((drv.GetScreenSize d.state).1,
    { state := (drv.GetScreenSize d.state).2, calls := d.calls ++ [XorgCall.GetScreenSize] })

/-- The call `xorg.ChangeScreenSize(width, height, rate)`. -/
def ChangeScreenSize (drv : Xorg σ) (width height rate : Int) (d : Display σ) :
    Option GoError × Display σ :=
  ((drv.ChangeScreenSize width height rate d.state).1,
    { state := (drv.ChangeScreenSize width height rate d.state).2
      calls := d.calls ++ [XorgCall.ChangeScreenSize width height rate] })

/-- The call `xorg.SetKeyboardLayout(layout)`. -/
def SetKeyboardLayout (drv : Xorg σ) (layout : String) (d : Display σ) : Display σ :=
  { state := drv.SetKeyboardLayout layout d.state
    calls := d.calls ++ [XorgCall.SetKeyboardLayout layout] }

/-- The call `xorg.SetKeyboardModifiers(NumLock, CapsLock, ScrollLock)`. -/
def SetKeyboardModifiers (drv : Xorg σ) (NumLock CapsLock ScrollLock : Int)
    (d : Display σ) : Display σ :=
  { state := drv.SetKeyboardModifiers NumLock CapsLock ScrollLock d.state
    calls := d.calls ++ [XorgCall.SetKeyboardModifiers NumLock CapsLock ScrollLock] }

end xorg

/-! ## `internal/desktop/xorg.go` -/

/-- One event handed to the emitter: its name and its arguments in order. -/
structure Emission where
  name : String
  args : List Int
  deriving DecidableEq, Repr

/-- The event emitter held by the desktop manager: the events published so far, oldest
first. -/
structure EventEmmiter where
  emitted : List Emission
  deriving DecidableEq, Repr

/-- The call `emmiter.Emit(name, args...)`. -/
def EventEmmiter.Emit (e : EventEmmiter) (name : String) (args : List Int) : EventEmmiter :=
  { emitted := e.emitted ++ [{ name := name, args := args }] }

/-- The struct `DesktopManagerCtx`, with the one field its methods in `xorg.go` use. -/
structure DesktopManagerCtx where
  emmiter : EventEmmiter
  deriving DecidableEq, Repr

namespace DesktopManagerCtx

variable {σ : Type}

/-- The method `Move(x, y int)`. -/
def Move (drv : Xorg σ) (_manager : DesktopManagerCtx) (x y : Int) (d : Display σ) :
    Display σ :=
  xorg.Move drv x y d

/-- The method `Scroll(x, y int)`. -/
def Scroll (drv : Xorg σ) (_manager : DesktopManagerCtx) (x y : Int) (d : Display σ) :
    Display σ :=
  xorg.Scroll drv x y d

/-- The method `ButtonDown(code int) error`. -/
def ButtonDown (drv : Xorg σ) (_manager : DesktopManagerCtx) (code : Int) (d : Display σ) :
    Option GoError × Display σ :=
  xorg.ButtonDown drv code d

/-- The method `KeyDown(code uint64) error`. -/
def KeyDown (drv : Xorg σ) (_manager : DesktopManagerCtx) (code : Nat) (d : Display σ) :
    Option GoError × Display σ :=
  xorg.KeyDown drv code d

/-- The method `ButtonUp(code int) error`. -/
def ButtonUp (drv : Xorg σ) (_manager : DesktopManagerCtx) (code : Int) (d : Display σ) :
    Option GoError × Display σ :=
  xorg.ButtonUp drv code d

/-- The method `KeyUp(code uint64) error`. -/
def KeyUp (drv : Xorg σ) (_manager : DesktopManagerCtx) (code : Nat) (d : Display σ) :
    Option GoError × Display σ :=
  xorg.KeyUp drv code d

/-- The method `ResetKeys()`. -/
def ResetKeys (drv : Xorg σ) (_manager : DesktopManagerCtx) (d : Display σ) : Display σ :=
  xorg.ResetKeys drv d

/-- The method `GetScreenSize() *types.ScreenSize`. -/
def GetScreenSize (drv : Xorg σ) (_manager : DesktopManagerCtx) (d : Display σ) :
    Option ScreenSize × Display σ :=
  xorg.GetScreenSize drv d

/-- The method `ChangeScreenSize(width, height, rate int) error`.  It returns the error,
the manager after the call and the display after the call. -/
def ChangeScreenSize (drv : Xorg σ) (manager : DesktopManagerCtx) (width height rate : Int)
    (d : Display σ) : Option GoError × DesktopManagerCtx × Display σ :=
  match xorg.ChangeScreenSize drv width height rate d with
  | (some err, d1) => (some err, manager, d1)
  | (none, d1) =>
    (none,
      { manager with
        emmiter := manager.emmiter.Emit "screen_size_change" [width, height, rate] },
      d1)

/-- The method `SetKeyboardLayout(layout string)`. -/
def SetKeyboardLayout (drv : Xorg σ) (_manager : DesktopManagerCtx) (layout : String)
    (d : Display σ) : Display σ :=
  xorg.SetKeyboardLayout drv layout d

/-- The method `SetKeyboardModifiers(NumLock, CapsLock, ScrollLock int)`. -/
def SetKeyboardModifiers (drv : Xorg σ) (_manager : DesktopManagerCtx)
    (NumLock CapsLock ScrollLock : Int) (d : Display σ) : Display σ :=
  xorg.SetKeyboardModifiers drv NumLock CapsLock ScrollLock d

end DesktopManagerCtx

/-! ## The facade against the bare driver -/

/-- The input and keyboard requests of the facade: one constructor per method among
`Move`, `Scroll`, `ButtonDown`, `ButtonUp`, `KeyDown`, `KeyUp`, `ResetKeys`,
`SetKeyboardLayout`, `SetKeyboardModifiers`. -/
inductive Op where
  | Move (x y : Int)
  | Scroll (x y : Int)
  | ButtonDown (code : Int)
  | ButtonUp (code : Int)
  | KeyDown (code : Nat)
  | KeyUp (code : Nat)
  | ResetKeys
  | SetKeyboardLayout (layout : String)
  | SetKeyboardModifiers (NumLock CapsLock ScrollLock : Int)
  deriving DecidableEq, Repr

/-- The driver call of the same name with the same arguments in the same order. -/
def Op.call : Op → XorgCall
  | Op.Move x y => XorgCall.Move x y
  | Op.Scroll x y => XorgCall.Scroll x y
  | Op.ButtonDown code => XorgCall.ButtonDown code
  | Op.ButtonUp code => XorgCall.ButtonUp code
  | Op.KeyDown code => XorgCall.KeyDown code
  | Op.KeyUp code => XorgCall.KeyUp code
  | Op.ResetKeys => XorgCall.ResetKeys
  | Op.SetKeyboardLayout layout => XorgCall.SetKeyboardLayout layout
  | Op.SetKeyboardModifiers n c s => XorgCall.SetKeyboardModifiers n c s

/-- One request served by the facade: the method of `DesktopManagerCtx` of that name.  A
method without a result answers `none`. -/
def facadeStep {σ : Type} (drv : Xorg σ) (manager : DesktopManagerCtx) :
    Op → Display σ → Option GoError × Display σ
  | Op.Move x y, d => (none, manager.Move drv x y d)
  | Op.Scroll x y, d => (none, manager.Scroll drv x y d)
  | Op.ButtonDown code, d => manager.ButtonDown drv code d
  | Op.ButtonUp code, d => manager.ButtonUp drv code d
  | Op.KeyDown code, d => manager.KeyDown drv code d
  | Op.KeyUp code, d => manager.KeyUp drv code d
  | Op.ResetKeys, d => (none, manager.ResetKeys drv d)
  | Op.SetKeyboardLayout layout, d => (none, manager.SetKeyboardLayout drv layout d)
  | Op.SetKeyboardModifiers n c s, d => (none, manager.SetKeyboardModifiers drv n c s d)

/-- What the driver itself answers to a request and the state it leaves, with no facade in
between. -/
def driverAnswer {σ : Type} (drv : Xorg σ) : Op → σ → Option GoError × σ
  | Op.Move x y, s => (none, drv.Move x y s)
  | Op.Scroll x y, s => (none, drv.Scroll x y s)
  | Op.ButtonDown code, s => drv.ButtonDown code s
  | Op.ButtonUp code, s => drv.ButtonUp code s
  | Op.KeyDown code, s => drv.KeyDown code s
  | Op.KeyUp code, s => drv.KeyUp code s
  | Op.ResetKeys, s => (none, drv.ResetKeys s)
  | Op.SetKeyboardLayout layout, s => (none, drv.SetKeyboardLayout layout s)
  | Op.SetKeyboardModifiers n c k, s => (none, drv.SetKeyboardModifiers n c k s)

/-- One request sent to the bare driver: exactly one driver call, the one of the same name
with the same arguments. -/
def driverStep {σ : Type} (drv : Xorg σ) (op : Op) (d : Display σ) :
    Option GoError × Display σ :=
  ((driverAnswer drv op d.state).1,
    { state := (driverAnswer drv op d.state).2, calls := d.calls ++ [op.call] })

/-- A sequence of requests served one after the other by `step`: the results in order and
the display at the end. -/
def runOps {σ : Type} (step : Op → Display σ → Option GoError × Display σ) :
    List Op → Display σ → List (Option GoError) × Display σ
  | [], d => ([], d)
  | op :: ops, d =>
    ((step op d).1 :: (runOps step ops (step op d).2).1, (runOps step ops (step op d).2).2)

/-! ## The display driver and the event bus of the spec -/

/-- Modelled from the spec: the state of the shared virtual display as far as spec §3
describes it: the current ScreenConfiguration and the enumerable set of available ones.
The driver package `internal/desktop/xorg` is not among the source files. -/
structure XDisplay where
  current : ScreenSize
  available : List ScreenSize
  deriving DecidableEq, Repr

/-- Modelled from the spec: the driver of spec §4.4 and §6.  `ChangeScreenSize` signals an
error for an unsupported configuration and otherwise makes the requested configuration
the current one; `GetScreenSize` reports the current one; the ScreenConfiguration is
mutated by nothing else (spec §3). -/
def specXorg : Xorg XDisplay where
  Move := fun _ _ s => s
  Scroll := fun _ _ s => s
  ButtonDown := fun _ s => (none, s)
  KeyDown := fun _ s => (none, s)
  ButtonUp := fun _ s => (none, s)
  KeyUp := fun _ s => (none, s)
  ResetKeys := fun s => s
  GetScreenSize := fun s => (some s.current, s)
  ChangeScreenSize := fun width height rate s =>
    if { Width := width, Height := height, Rate := rate } ∈ s.available then
      (none, { s with current := { Width := width, Height := height, Rate := rate } })
    else
      (some { Error := "unknown configuration" }, s)
  SetKeyboardLayout := fun _ s => s
  SetKeyboardModifiers := fun _ _ _ s => s

/-- Modelled from the spec: the Event Bus of spec §2 and §4.2 for one published event: a
configuration-changed event is fanned out to all registered sessions as
`SCREEN_SIZE_CHANGE {width, height, rate}`; the code that subscribes to the emitter is not
among the source files. -/
def EventBus.publish (registry : SessionManagerCtx) (t : Trace) (e : Emission) : Trace :=
  match e.name, e.args with
  | "screen_size_change", [width, height, rate] =>
    registry.members.foldl (fun t1 s => (s.Send (Message.screen
      { Event := event.SCREEN_SIZE_CHANGE, Width := width, Height := height, Rate := rate })
      t1).2) t
  | _, _ => t

/-- Modelled from the spec: the Event Bus fanning out a list of published events, oldest
first. -/
def EventBus.publishAll (registry : SessionManagerCtx) (es : List Emission) (t : Trace) :
    Trace :=
  es.foldl (EventBus.publish registry) t

/-! ## `server/cmd/serve.go`: configuration -/

/-- The fields of `serve.configs`. -/
inductive Config where
  | Desktop
  | Capture
  | WebRTC
  | Member
  | Session
  | Plugins
  | Server
  deriving DecidableEq, Repr

/-- One call on a config object. -/
inductive ConfigCall where
  | Init (c : Config)
  | InitV2 (c : Config)
  | Set (c : Config)
  | SetV2 (c : Config)
  deriving DecidableEq, Repr

/-- What `serve.Init` and `serve.PreRun` talk to: viper and the methods of the config
objects, over the state `σ` of the configuration (flags, environment, files, the config
structs).  `GetBool key` and `IsSet key` are `viper.GetBool(key)` and `viper.IsSet(key)`. -/
structure ConfigEnv (σ : Type) where
  GetBool : String → σ → Bool
  IsSet : String → σ → Bool
  Init : Config → σ → Option GoError × σ
  InitV2 : Config → σ → Option GoError × σ
  Set : Config → σ → σ
  SetV2 : Config → σ → σ

/-- The configuration state and the calls made on config objects so far, oldest first. -/
structure ConfigWorld (σ : Type) where
  state : σ
  calls : List ConfigCall

namespace serve

variable {σ : Type}

/-- The statements `if err := c.configs.X.Init(cmd); err != nil { return err }`, one per
config `X` of the list, in order: the first error ends the run. -/
def initEach (env : ConfigEnv σ) : List Config → ConfigWorld σ → Option GoError × ConfigWorld σ
  | [], w => (none, w)
  | c :: cs, w =>
    match env.Init c w.state with
    | (some err, s) => (some err, { state := s, calls := w.calls ++ [ConfigCall.Init c] })
    | (none, s) => initEach env cs { state := s, calls := w.calls ++ [ConfigCall.Init c] }

/-- The statements `if err := c.configs.X.InitV2(cmd); err != nil { return err }`, one per
config `X` of the list, in order: the first error ends the run. -/
def initV2Each (env : ConfigEnv σ) :
    List Config → ConfigWorld σ → Option GoError × ConfigWorld σ
  | [], w => (none, w)
  | c :: cs, w =>
    match env.InitV2 c w.state with
    | (some err, s) => (some err, { state := s, calls := w.calls ++ [ConfigCall.InitV2 c] })
    | (none, s) => initV2Each env cs { state := s, calls := w.calls ++ [ConfigCall.InitV2 c] }

/-- The statements `c.configs.X.Set()`, one per config `X` of the list, in order. -/
def setEach (env : ConfigEnv σ) : List Config → ConfigWorld σ → ConfigWorld σ
  | [], w => w
  | c :: cs, w =>
    setEach env cs { state := env.Set c w.state, calls := w.calls ++ [ConfigCall.Set c] }

/-- The statements `c.configs.X.SetV2()`, one per config `X` of the list, in order. -/
def setV2Each (env : ConfigEnv σ) : List Config → ConfigWorld σ → ConfigWorld σ
  | [], w => w
  | c :: cs, w =>
    setV2Each env cs { state := env.SetV2 c w.state, calls := w.calls ++ [ConfigCall.SetV2 c] }

/-- The condition `viper.GetBool("legacy") || !viper.IsSet("legacy")`, the same text in
`Init` and in `PreRun`. -/
def legacy (env : ConfigEnv σ) (s : σ) : Bool :=
  env.GetBool "legacy" s || !env.IsSet "legacy" s

/-- The configs `Init` and `PreRun` go through first, in source order. -/
def configs : List Config :=
  [Config.Desktop, Config.Capture, Config.WebRTC, Config.Member, Config.Session,
    Config.Plugins, Config.Server]

/-- The configs `Init` and `PreRun` go through inside the legacy branch, in source order;
`Plugins` is not among them. -/
def configsV2 : List Config :=
  [Config.Desktop, Config.Capture, Config.WebRTC, Config.Member, Config.Session,
    Config.Server]

/-- The method `(c *serve) Init(cmd)`. -/
def Init (env : ConfigEnv σ) (w : ConfigWorld σ) : Option GoError × ConfigWorld σ :=
  match initEach env configs w with
  | (some err, w1) => (some err, w1)
  | (none, w1) =>
    if legacy env w1.state then
      initV2Each env configsV2 w1
    else
      (none, w1)

/-- The method `(c *serve) PreRun(cmd, args)`. -/
def PreRun (env : ConfigEnv σ) (w : ConfigWorld σ) : ConfigWorld σ :=
  let w1 := setEach env configs w
  if legacy env w1.state then
    setV2Each env configsV2 w1
  else
    w1

end serve

/-- A viper key as viper compares it: keys are case-insensitive, so every character is
put in lower case. -/
def viperKey (key : String) : List Char :=
  key.data.map Char.toLower

/-- A viper store of boolean settings.  Keys are compared without regard to case, as in
viper: `IsSet key` holds when the key has an entry, `GetBool key` is the value of its
first entry and `false` when there is none.  No config method fails or changes the
store. -/
def plainViper : ConfigEnv (List (String × Bool)) where
  GetBool := fun key s =>
    ((s.find? (fun kv => viperKey kv.1 == viperKey key)).map (fun kv => kv.2)).getD false
  IsSet := fun key s => (s.find? (fun kv => viperKey kv.1 == viperKey key)).isSome
  Init := fun _ s => (none, s)
  InitV2 := fun _ s => (none, s)
  Set := fun _ s => s
  SetV2 := fun _ s => s

/-- A configuration in which nothing at all is set, and no call made yet. -/
def nothingSet : ConfigWorld (List (String × Bool)) :=
  { state := [], calls := [] }

/-! ## `server/cmd/serve.go`: managers -/

/-- The fields of `serve.managers`. -/
inductive Manager where
  | desktop
  | capture
  | webRTC
  | member
  | session
  | webSocket
  | plugins
  | api
  | http
  deriving DecidableEq, Repr

/-- One call made by `serve.Start` or `serve.Shutdown`.  `Connect` and `Disconnect` are
the start and stop operations of the member manager. -/
inductive ManagerCall where
  | New (m : Manager)
  | Connect (m : Manager)
  | Start (m : Manager)
  | InitConfigs (m : Manager)
  | SetConfigs (m : Manager)
  | Shutdown (m : Manager)
  | Disconnect (m : Manager)
  | Log (err : Option GoError) (msg : String)
  | LogPanic (err : GoError) (msg : String)
  deriving DecidableEq, Repr

/-- The answers of the manager operations that return `error`. -/
structure ManagerEnv where
  Connect : Manager → Option GoError
  Shutdown : Manager → Option GoError
  Disconnect : Manager → Option GoError

/-- How a function ended: it returned, or it panicked; either way with the calls made. -/
inductive Ended where
  | returned (calls : List ManagerCall)
  | panicked (calls : List ManagerCall)
  deriving DecidableEq, Repr

/-- The calls made before a function ended. -/
def Ended.calls : Ended → List ManagerCall
  | Ended.returned t => t
  | Ended.panicked t => t

namespace serve

/-- The method `(c *serve) Start(cmd)`. -/
def Start (env : ManagerEnv) (t : List ManagerCall) : Ended :=
  let t := t ++ [ManagerCall.New Manager.session]
  let t := t ++ [ManagerCall.New Manager.member]
  let t := t ++ [ManagerCall.Connect Manager.member]
  match env.Connect Manager.member with
  | some err =>
    Ended.panicked (t ++ [ManagerCall.LogPanic err "unable to connect to member manager"])
  | none =>
    let t := t ++ [ManagerCall.New Manager.desktop]
    let t := t ++ [ManagerCall.Start Manager.desktop]
    let t := t ++ [ManagerCall.New Manager.capture]
    let t := t ++ [ManagerCall.Start Manager.capture]
    let t := t ++ [ManagerCall.New Manager.webRTC]
    let t := t ++ [ManagerCall.Start Manager.webRTC]
    let t := t ++ [ManagerCall.New Manager.webSocket]
    let t := t ++ [ManagerCall.Start Manager.webSocket]
    let t := t ++ [ManagerCall.New Manager.api]
    let t := t ++ [ManagerCall.New Manager.plugins]
    let t := t ++ [ManagerCall.InitConfigs Manager.plugins]
    let t := t ++ [ManagerCall.SetConfigs Manager.plugins]
    let t := t ++ [ManagerCall.Start Manager.plugins]
    let t := t ++ [ManagerCall.New Manager.http]
    let t := t ++ [ManagerCall.Start Manager.http]
    Ended.returned t

/-- The method `(c *serve) Shutdown()`, on the managers `Start` has set. -/
def Shutdown (env : ManagerEnv) (t : List ManagerCall) : List ManagerCall :=
  let t := t ++ [ManagerCall.Shutdown Manager.http]
  let t := t ++ [ManagerCall.Log (env.Shutdown Manager.http) "http manager shutdown"]
  let t := t ++ [ManagerCall.Shutdown Manager.plugins]
  let t := t ++ [ManagerCall.Log (env.Shutdown Manager.plugins) "plugins manager shutdown"]
  let t := t ++ [ManagerCall.Shutdown Manager.webSocket]
  let t := t ++ [ManagerCall.Log (env.Shutdown Manager.webSocket) "websocket manager shutdown"]
  let t := t ++ [ManagerCall.Shutdown Manager.webRTC]
  let t := t ++ [ManagerCall.Log (env.Shutdown Manager.webRTC) "webrtc manager shutdown"]
  let t := t ++ [ManagerCall.Shutdown Manager.capture]
  let t := t ++ [ManagerCall.Log (env.Shutdown Manager.capture) "capture manager shutdown"]
  let t := t ++ [ManagerCall.Shutdown Manager.desktop]
  let t := t ++ [ManagerCall.Log (env.Shutdown Manager.desktop) "desktop manager shutdown"]
  let t := t ++ [ManagerCall.Disconnect Manager.member]
  let t := t ++ [ManagerCall.Log (env.Disconnect Manager.member) "member manager disconnect"]
  t

end serve

/-- The managers a list of calls creates, in order. -/
def createdOrder : List ManagerCall → List Manager
  | [] => []
  | ManagerCall.New m :: t => m :: createdOrder t
  | _ :: t => createdOrder t

/-- The managers a list of calls starts (`Start`, or `Connect` for the member manager), in
order. -/
def startedOrder : List ManagerCall → List Manager
  | [] => []
  | ManagerCall.Start m :: t => m :: startedOrder t
  | ManagerCall.Connect m :: t => m :: startedOrder t
  | _ :: t => startedOrder t

/-- The managers a list of calls stops (`Shutdown`, or `Disconnect` for the member
manager), in order. -/
def stoppedOrder : List ManagerCall → List Manager
  | [] => []
  | ManagerCall.Shutdown m :: t => m :: stoppedOrder t
  | ManagerCall.Disconnect m :: t => m :: stoppedOrder t
  | _ :: t => stoppedOrder t

/-- The managers with a stop operation: the ones `serve.Shutdown` calls `Shutdown` or
`Disconnect` on.  The session and api managers have none. -/
def Manager.hasStop : Manager → Bool
  | Manager.session => false
  | Manager.api => false
  | _ => true

/-! ## Concrete inputs -/

/-- A connected session whose transport accepts every message. -/
def alice : Session :=
  { ID := "alice", State := Lifecycle.Active, transport := fun _ => none }

/-- A connected session whose transport rejects every message. -/
def bob : Session :=
  { ID := "bob", State := Lifecycle.Active
    transport := fun _ => some { Error := "connection closed" } }

/-- A registered session that is no longer Active. -/
def carol : Session :=
  { ID := "carol", State := Lifecycle.Disconnected, transport := fun _ => none }

/-- A registry with three sessions. -/
def sampleRegistry : SessionManagerCtx :=
  { members := [alice, bob, carol] }

/-- A handler over the sample registry. -/
def sampleHandler : MessageHandlerCtx :=
  { sessions := sampleRegistry.toManager }

/-- A unicast request from a client that names `bob` as receiver and forges its sender. -/
def toBob : message.SendUnicast :=
  { Event := event.SEND_UNICAST, Sender := "mallory", Receiver := "bob"
    Subject := "greeting", Body := "hello" }

/-- A unicast request to an ID that is not registered. -/
def toNobody : message.SendUnicast :=
  { Event := event.SEND_UNICAST, Sender := "alice", Receiver := "dave"
    Subject := "greeting", Body := "hello" }

/-- A display at 1280x720@30 that also supports 1920x1080@60, with no driver call made yet. -/
def sampleDisplay : Display XDisplay :=
  { state :=
      { current := { Width := 1280, Height := 720, Rate := 30 }
        available :=
          [{ Width := 1280, Height := 720, Rate := 30 },
            { Width := 1920, Height := 1080, Rate := 60 }] }
    calls := [] }

/-- A desktop manager that has published nothing yet. -/
def sampleManager : DesktopManagerCtx :=
  { emmiter := { emitted := [] } }

/-- Managers whose member manager connects and whose http and capture managers fail to
shut down. -/
def failingStops : ManagerEnv :=
  { Connect := fun _ => none
    Shutdown := fun m =>
      if m = Manager.http ∨ m = Manager.capture then some { Error := "timeout" } else none
    Disconnect := fun _ => none }

/-! ## Lemmas on traces -/

/-- The deliveries of two traces in a row are the deliveries of each, in a row. -/
theorem deliveries_append (a b : Trace) :
    deliveries (a ++ b) = deliveries a ++ deliveries b := by
  induction a with
  | nil => rfl
  | cons x xs ih => cases x <;> simp [deliveries, ih]

/-- The `Broadcast` calls of two traces in a row add up. -/
theorem broadcastCalls_append (a b : Trace) :
    broadcastCalls (a ++ b) = broadcastCalls a + broadcastCalls b := by
  induction a with
  | nil => simp [broadcastCalls]
  | cons x xs ih =>
    cases x <;> simp [broadcastCalls, ih]
    omega

/-- One recipient of the registry's `Broadcast` adds one delivery when it is Active and not
excluded, and none otherwise. -/
theorem deliveries_deliver (v : Message) (exclude : List String) (t : Trace) (s : Session) :
    deliveries (SessionManagerCtx.deliver v exclude t s) =
      deliveries t ++
        (if s.State = Lifecycle.Active ∧ s.ID ∉ exclude then [(s, v)] else []) := by
  unfold SessionManagerCtx.deliver
  by_cases hc : s.State = Lifecycle.Active ∧ s.ID ∉ exclude
  · rw [if_pos hc, if_pos hc]
    cases hs : s.transport v <;>
      simp [Session.Send, hs, deliveries_append, deliveries]
  · rw [if_neg hc, if_neg hc]; simp

/-- Serving one recipient makes no `Broadcast` call. -/
theorem broadcastCalls_deliver (v : Message) (exclude : List String) (t : Trace)
    (s : Session) :
    broadcastCalls (SessionManagerCtx.deliver v exclude t s) = broadcastCalls t := by
  unfold SessionManagerCtx.deliver
  by_cases hc : s.State = Lifecycle.Active ∧ s.ID ∉ exclude
  · rw [if_pos hc]
    cases hs : s.transport v <;>
      simp [Session.Send, hs, broadcastCalls_append, broadcastCalls]
  · rw [if_neg hc]

/-- Serving a list of recipients delivers to the Active, not excluded ones, in order. -/
theorem deliveries_foldl_deliver (v : Message) (exclude : List String)
    (ms : List Session) (t : Trace) :
    deliveries (ms.foldl (SessionManagerCtx.deliver v exclude) t) =
      deliveries t ++
        (ms.filter (fun r => decide (r.State = Lifecycle.Active ∧ r.ID ∉ exclude))).map
          (fun r => (r, v)) := by
  induction ms generalizing t with
  | nil => simp
  | cons m ms ih =>
    rw [List.foldl_cons, ih, deliveries_deliver]
    by_cases hc : m.State = Lifecycle.Active ∧ m.ID ∉ exclude
    · rw [if_pos hc, List.filter_cons_of_pos (by simpa using hc)]
      simp
    · rw [if_neg hc, List.filter_cons_of_neg (by simpa using hc)]
      simp

/-- Serving a list of recipients makes no `Broadcast` call. -/
theorem broadcastCalls_foldl_deliver (v : Message) (exclude : List String)
    (ms : List Session) (t : Trace) :
    broadcastCalls (ms.foldl (SessionManagerCtx.deliver v exclude) t) = broadcastCalls t := by
  induction ms generalizing t with
  | nil => rfl
  | cons m ms ih => rw [List.foldl_cons, ih, broadcastCalls_deliver]

/-! ## Claims on `send.go` -/

/-- C1: for every sender session and every unicast payload whose Receiver ID the registry
does not know (`Get` answers not found), `sendUnicast` returns nil and delivers nothing:
the only call it adds to the trace is the debug log line, so no `Send` and no `Broadcast`
is invoked on any session. -/
theorem sendUnicast_unknown_receiver (h : MessageHandlerCtx) (session : Session)
    (payload : message.SendUnicast) (t : Trace)
    (hget : h.sessions.Get payload.Receiver = none) :
    (h.sendUnicast session payload t).err = none ∧
    (h.sendUnicast session payload t).trace =
      t ++ [Action.Debug session.ID "receiver session ID not found"] ∧
    deliveries (h.sendUnicast session payload t).trace = deliveries t ∧
    broadcastCalls (h.sendUnicast session payload t).trace = broadcastCalls t := by
  simp [MessageHandlerCtx.sendUnicast, hget, deliveries_append, broadcastCalls_append,
    deliveries, broadcastCalls]

/-- Witness for C1: `alice` writes to the unregistered ID `dave`. -/
theorem sendUnicast_unknown_receiver_witness :
    sampleHandler.sessions.Get toNobody.Receiver = none ∧
    (sampleHandler.sendUnicast alice toNobody []).err = none ∧
    (sampleHandler.sendUnicast alice toNobody []).trace =
      [] ++ [Action.Debug alice.ID "receiver session ID not found"] ∧
    deliveries (sampleHandler.sendUnicast alice toNobody []).trace = deliveries [] ∧
    broadcastCalls (sampleHandler.sendUnicast alice toNobody []).trace = broadcastCalls [] :=
  ⟨rfl, sendUnicast_unknown_receiver sampleHandler alice toNobody [] rfl⟩

/-- C6: for every sender session and every unicast payload whose Receiver ID the registry
knows, `sendUnicast` adds exactly one call to the trace, a `Send` on the session that was
looked up; the envelope has kind SEND_UNICAST, the ID of that session as receiver, and the
Subject and Body of the payload; the payload is left as it was; and the returned error is
the answer of that `Send`, so it is an error exactly when that `Send` failed. -/
theorem sendUnicast_known_receiver (h : MessageHandlerCtx) (session receiver : Session)
    (payload : message.SendUnicast) (t : Trace)
    (hget : h.sessions.Get payload.Receiver = some receiver) :
    (h.sendUnicast session payload t).trace =
      t ++ [Action.Send receiver (Message.unicast
        { Event := event.SEND_UNICAST, Sender := session.ID, Receiver := receiver.ID
          Subject := payload.Subject, Body := payload.Body })] ∧
    deliveries (h.sendUnicast session payload t).trace =
      deliveries t ++ [(receiver, Message.unicast
        { Event := event.SEND_UNICAST, Sender := session.ID, Receiver := receiver.ID
          Subject := payload.Subject, Body := payload.Body })] ∧
    broadcastCalls (h.sendUnicast session payload t).trace = broadcastCalls t ∧
    (h.sendUnicast session payload t).payload = payload ∧
    (h.sendUnicast session payload t).err = receiver.transport (Message.unicast
        { Event := event.SEND_UNICAST, Sender := session.ID, Receiver := receiver.ID
          Subject := payload.Subject, Body := payload.Body }) ∧
    ((h.sendUnicast session payload t).err.isSome = true ↔
      (receiver.transport (Message.unicast
        { Event := event.SEND_UNICAST, Sender := session.ID, Receiver := receiver.ID
          Subject := payload.Subject, Body := payload.Body })).isSome = true) := by
  simp [MessageHandlerCtx.sendUnicast, hget, Session.Send, deliveries_append,
    broadcastCalls_append, deliveries, broadcastCalls]

/-- Witness for C6: `alice` writes to `bob`, whose transport rejects the message. -/
theorem sendUnicast_known_receiver_witness :
    sampleHandler.sessions.Get toBob.Receiver = some bob ∧
    (sampleHandler.sendUnicast alice toBob []).trace =
      [Action.Send bob (Message.unicast
        { Event := event.SEND_UNICAST, Sender := "alice", Receiver := "bob"
          Subject := "greeting", Body := "hello" })] ∧
    (sampleHandler.sendUnicast alice toBob []).payload = toBob ∧
    (sampleHandler.sendUnicast alice toBob []).err = some { Error := "connection closed" } :=
  ⟨rfl, (sendUnicast_known_receiver sampleHandler alice bob toBob [] rfl).1,
    (sendUnicast_known_receiver sampleHandler alice bob toBob [] rfl).2.2.2.1,
    (sendUnicast_known_receiver sampleHandler alice bob toBob [] rfl).2.2.2.2.1⟩

/-- C2: for every handler, every sender session S and every broadcast payload,
`sendBroadcast` returns nil, leaves the payload as it was and calls the registry's
`Broadcast` exactly once, with the envelope it built and the exclusion list `[S.ID()]`.
On the registry of the spec the deliveries this causes are one `Send` of that envelope to
each registered session that is Active and whose ID differs from the one of S, in registry
order, and nothing else: the session with the ID of S gets nothing. -/
theorem sendBroadcast_excludes_sender (h : MessageHandlerCtx) (registry : SessionManagerCtx)
    (S : Session) (payload : message.SendBroadcast) (t : Trace) :
    (h.sendBroadcast S payload t).err = none ∧
    (h.sendBroadcast S payload t).payload = payload ∧
    (h.sendBroadcast S payload t).trace
      = h.sessions.Broadcast (Message.broadcast
          { Event := event.SEND_BROADCAST, Sender := S.ID
            Subject := payload.Subject, Body := payload.Body }) [S.ID]
        (t ++ [Action.Broadcast (Message.broadcast
          { Event := event.SEND_BROADCAST, Sender := S.ID
            Subject := payload.Subject, Body := payload.Body }) [S.ID]]) ∧
    broadcastCalls
      (MessageHandlerCtx.sendBroadcast { sessions := registry.toManager } S payload t).trace
      = broadcastCalls t + 1 ∧
    deliveries
      (MessageHandlerCtx.sendBroadcast { sessions := registry.toManager } S payload t).trace
      = deliveries t ++
        (registry.members.filter
          (fun r => decide (r.State = Lifecycle.Active) && decide (r.ID ≠ S.ID))).map
          (fun r => (r, Message.broadcast
            { Event := event.SEND_BROADCAST, Sender := S.ID
              Subject := payload.Subject, Body := payload.Body })) ∧
    (deliveries (MessageHandlerCtx.sendBroadcast { sessions := registry.toManager } S
        payload []).trace).all (fun x => decide (x.1.ID ≠ S.ID)) = true := by
  have hdel : ∀ t1 : Trace, deliveries
      (MessageHandlerCtx.sendBroadcast { sessions := registry.toManager } S payload t1).trace
      = deliveries t1 ++
        (registry.members.filter
          (fun r => decide (r.State = Lifecycle.Active) && decide (r.ID ≠ S.ID))).map
          (fun r => (r, Message.broadcast
            { Event := event.SEND_BROADCAST, Sender := S.ID
              Subject := payload.Subject, Body := payload.Body })) := by
    intro t1
    simp only [MessageHandlerCtx.sendBroadcast, SessionManagerCtx.toManager,
      SessionManagerCtx.Broadcast]
    rw [deliveries_foldl_deliver, deliveries_append]
    simp [deliveries]
  refine ⟨rfl, rfl, rfl, ?_, hdel t, ?_⟩
  · simp [MessageHandlerCtx.sendBroadcast, SessionManagerCtx.toManager,
      SessionManagerCtx.Broadcast, broadcastCalls_foldl_deliver, broadcastCalls_append,
      broadcastCalls]
  · rw [hdel]
    simp only [deliveries, List.nil_append, List.all_eq_true, List.mem_map, List.mem_filter,
      Bool.and_eq_true, decide_eq_true_eq]
    rintro x ⟨r, ⟨_, _, hne⟩, rfl⟩
    exact hne

/-- C9: the Sender field a client puts into a payload has no effect.  For every handler,
session S and trace, replacing the Sender of a unicast payload (of a broadcast payload)
by any other text leaves the returned error and every call made, envelope included,
the same; the unicast envelope handed to `Send` and the broadcast envelope handed to
`Broadcast` carry `S.ID()` as Sender. -/
theorem sender_not_spoofable (h : MessageHandlerCtx) (S : Session)
    (u : message.SendUnicast) (b : message.SendBroadcast) (forged : String) (t : Trace) :
    (h.sendUnicast S { u with Sender := forged } t).trace = (h.sendUnicast S u t).trace ∧
    (h.sendUnicast S { u with Sender := forged } t).err = (h.sendUnicast S u t).err ∧
    (h.sendBroadcast S { b with Sender := forged } t).trace = (h.sendBroadcast S b t).trace ∧
    (h.sendBroadcast S { b with Sender := forged } t).err = (h.sendBroadcast S b t).err ∧
    (match h.sessions.Get u.Receiver with
      | some receiver =>
        (h.sendUnicast S { u with Sender := forged } t).trace =
          t ++ [Action.Send receiver (Message.unicast
            { Event := event.SEND_UNICAST, Sender := S.ID, Receiver := receiver.ID
              Subject := u.Subject, Body := u.Body })]
      | none => deliveries (h.sendUnicast S { u with Sender := forged } t).trace
          = deliveries t) ∧
    (h.sendBroadcast S { b with Sender := forged } t).trace =
      h.sessions.Broadcast (Message.broadcast
          { Event := event.SEND_BROADCAST, Sender := S.ID
            Subject := b.Subject, Body := b.Body }) [S.ID]
        (t ++ [Action.Broadcast (Message.broadcast
          { Event := event.SEND_BROADCAST, Sender := S.ID
            Subject := b.Subject, Body := b.Body }) [S.ID]]) := by
  refine ⟨?_, ?_, rfl, rfl, ?_, rfl⟩
  · dsimp only [MessageHandlerCtx.sendUnicast]
    cases h.sessions.Get u.Receiver <;> rfl
  · dsimp only [MessageHandlerCtx.sendUnicast]
    cases h.sessions.Get u.Receiver <;> rfl
  cases hget : h.sessions.Get u.Receiver with
  | none =>
    simp [MessageHandlerCtx.sendUnicast, hget, deliveries_append, deliveries]
  | some receiver =>
    simp [MessageHandlerCtx.sendUnicast, hget, Session.Send]

/-! ## Claims on `xorg.go` -/

/-- After a successful driver call the manager has published one more event. -/
theorem ChangeScreenSize_success_emits_aux {σ : Type} (drv : Xorg σ)
    (manager : DesktopManagerCtx) (width height rate : Int) (d : Display σ)
    (hok : (drv.ChangeScreenSize width height rate d.state).1 = none) :
    (manager.ChangeScreenSize drv width height rate d).2.1.emmiter.emitted =
      manager.emmiter.emitted ++
        [{ name := "screen_size_change", args := [width, height, rate] }] := by
  simp [DesktopManagerCtx.ChangeScreenSize, xorg.ChangeScreenSize, hok, EventEmmiter.Emit]

/-- C3: for every driver, manager, width, height and rate, when the driver's
`ChangeScreenSize` succeeds, the method `ChangeScreenSize` of the manager returns nil and
publishes exactly one event, "screen_size_change", with that width, height and rate in
that order. -/
theorem ChangeScreenSize_success_emits {σ : Type} (drv : Xorg σ)
    (manager : DesktopManagerCtx) (width height rate : Int) (d : Display σ)
    (hok : (drv.ChangeScreenSize width height rate d.state).1 = none) :
    (manager.ChangeScreenSize drv width height rate d).1 = none ∧
    (manager.ChangeScreenSize drv width height rate d).2.1.emmiter.emitted =
      manager.emmiter.emitted ++
        [{ name := "screen_size_change", args := [width, height, rate] }] := by
  simp [DesktopManagerCtx.ChangeScreenSize, xorg.ChangeScreenSize, hok, EventEmmiter.Emit]

/-- Witness for C3: the sample display supports 1920x1080@60. -/
theorem ChangeScreenSize_success_emits_witness :
    (specXorg.ChangeScreenSize 1920 1080 60 sampleDisplay.state).1 = none ∧
    (sampleManager.ChangeScreenSize specXorg 1920 1080 60 sampleDisplay).1 = none ∧
    (sampleManager.ChangeScreenSize specXorg 1920 1080 60 sampleDisplay).2.1.emmiter.emitted =
      sampleManager.emmiter.emitted ++
        [{ name := "screen_size_change", args := [1920, 1080, 60] }] :=
  ⟨by decide,
    ChangeScreenSize_success_emits specXorg sampleManager 1920 1080 60 sampleDisplay
      (by decide)⟩

/-- C5: for every driver, manager, width, height and rate, the method `ChangeScreenSize`
calls the driver's `ChangeScreenSize` exactly once, with those arguments; when that call
fails, the method returns that very error and the manager publishes nothing; so the method
returns an error exactly when the driver call failed, and it publishes an event exactly
when the driver call succeeded. -/
theorem ChangeScreenSize_failure_surfaced {σ : Type} (drv : Xorg σ)
    (manager : DesktopManagerCtx) (width height rate : Int) (d : Display σ) :
    (manager.ChangeScreenSize drv width height rate d).2.2.calls =
      d.calls ++ [XorgCall.ChangeScreenSize width height rate] ∧
    (∀ err : GoError, (drv.ChangeScreenSize width height rate d.state).1 = some err →
      (manager.ChangeScreenSize drv width height rate d).1 = some err ∧
      (manager.ChangeScreenSize drv width height rate d).2.1 = manager) ∧
    ((manager.ChangeScreenSize drv width height rate d).1.isSome = true ↔
      (drv.ChangeScreenSize width height rate d.state).1.isSome = true) ∧
    ((manager.ChangeScreenSize drv width height rate d).2.1.emmiter.emitted ≠
        manager.emmiter.emitted ↔
      (drv.ChangeScreenSize width height rate d.state).1 = none) := by
  cases hres : (drv.ChangeScreenSize width height rate d.state).1 with
  | none =>
    simp [DesktopManagerCtx.ChangeScreenSize, xorg.ChangeScreenSize, hres, EventEmmiter.Emit]
  | some e =>
    simp [DesktopManagerCtx.ChangeScreenSize, xorg.ChangeScreenSize, hres]

/-- Witness for C5: the sample display does not support 800x600@75. -/
theorem ChangeScreenSize_failure_surfaced_witness :
    (specXorg.ChangeScreenSize 800 600 75 sampleDisplay.state).1 =
      some { Error := "unknown configuration" } ∧
    (sampleManager.ChangeScreenSize specXorg 800 600 75 sampleDisplay).1 =
      some { Error := "unknown configuration" } ∧
    (sampleManager.ChangeScreenSize specXorg 800 600 75 sampleDisplay).2.1 = sampleManager ∧
    (sampleManager.ChangeScreenSize specXorg 800 600 75 sampleDisplay).2.2.calls =
      [XorgCall.ChangeScreenSize 800 600 75] :=
  ⟨by decide,
    ((ChangeScreenSize_failure_surfaced specXorg sampleManager 800 600 75 sampleDisplay).2.1
      { Error := "unknown configuration" } (by decide)).1,
    ((ChangeScreenSize_failure_surfaced specXorg sampleManager 800 600 75 sampleDisplay).2.1
      { Error := "unknown configuration" } (by decide)).2,
    (ChangeScreenSize_failure_surfaced specXorg sampleManager 800 600 75 sampleDisplay).1⟩

/-- Every request is served by the facade exactly as the bare driver serves it. -/
theorem facadeStep_eq_driverStep {σ : Type} (drv : Xorg σ) (manager : DesktopManagerCtx)
    (op : Op) (d : Display σ) : facadeStep drv manager op d = driverStep drv op d := by
  cases op <;> rfl

/-- Two ways of serving a request that agree on every request agree on every sequence. -/
theorem runOps_congr {σ : Type} (f g : Op → Display σ → Option GoError × Display σ)
    (hfg : ∀ op d, f op d = g op d) (ops : List Op) (d : Display σ) :
    runOps f ops d = runOps g ops d := by
  induction ops generalizing d with
  | nil => rfl
  | cons op ops ih => simp [runOps, hfg, ih]

/-- C7: the facade holds no policy.  For every driver and every manager state, each of
Move, Scroll, ButtonDown, ButtonUp, KeyDown, KeyUp, ResetKeys, SetKeyboardLayout and
SetKeyboardModifiers is served exactly as the bare driver serves it: one driver call, of
the same name with the same arguments in the same order, and the error of the driver as
result (so an error exactly when the driver returned one); every sequence of these
requests gives the same results and the same trace of driver calls through the facade as
on the bare driver, whatever the manager state. -/
theorem facade_refines_driver {σ : Type} (drv : Xorg σ) (manager : DesktopManagerCtx)
    (ops : List Op) (d : Display σ) :
    runOps (facadeStep drv manager) ops d = runOps (driverStep drv) ops d ∧
    (∀ (op : Op) (d1 : Display σ),
      (facadeStep drv manager op d1).2.calls = d1.calls ++ [op.call] ∧
      (facadeStep drv manager op d1).2.state = (driverAnswer drv op d1.state).2 ∧
      (facadeStep drv manager op d1).1 = (driverAnswer drv op d1.state).1 ∧
      ((facadeStep drv manager op d1).1.isSome = true ↔
        (driverAnswer drv op d1.state).1.isSome = true)) ∧
    (∀ other : DesktopManagerCtx,
      runOps (facadeStep drv other) ops d = runOps (facadeStep drv manager) ops d) := by
  refine ⟨runOps_congr _ _ (facadeStep_eq_driverStep drv manager) ops d, ?_, ?_⟩
  · intro op d1
    rw [facadeStep_eq_driverStep]
    simp [driverStep]
  · intro other
    exact runOps_congr _ _ (fun op d1 => by
      rw [facadeStep_eq_driverStep, facadeStep_eq_driverStep]) ops d

/-- On the driver of the spec no input or keyboard request touches the display state. -/
theorem specXorg_driverAnswer_state (op : Op) (s : XDisplay) :
    (driverAnswer specXorg op s).2 = s := by
  cases op <;> rfl

/-- On the driver of the spec a sequence of input and keyboard requests served by the
facade leaves the display state as it was. -/
theorem specXorg_runOps_state (manager : DesktopManagerCtx) (ops : List Op)
    (d : Display XDisplay) :
    (runOps (facadeStep specXorg manager) ops d).2.state = d.state := by
  induction ops generalizing d with
  | nil => rfl
  | cons op ops ih =>
    simp only [runOps]
    rw [ih, facadeStep_eq_driverStep]
    exact specXorg_driverAnswer_state op d.state

/-- The event bus of the spec hands one configuration-changed event to every registered
session, in registry order. -/
theorem deliveries_publish_screen (registry : SessionManagerCtx) (width height rate : Int)
    (t : Trace) :
    deliveries (EventBus.publish registry t
        { name := "screen_size_change", args := [width, height, rate] }) =
      deliveries t ++ registry.members.map (fun s => (s, Message.screen
        { Event := event.SCREEN_SIZE_CHANGE, Width := width, Height := height
          Rate := rate })) := by
  have key : ∀ (ms : List Session) (t1 : Trace),
      deliveries (ms.foldl (fun t2 s => (s.Send (Message.screen
        { Event := event.SCREEN_SIZE_CHANGE, Width := width, Height := height
          Rate := rate }) t2).2) t1) =
      deliveries t1 ++ ms.map (fun s => (s, Message.screen
        { Event := event.SCREEN_SIZE_CHANGE, Width := width, Height := height
          Rate := rate })) := by
    intro ms
    induction ms with
    | nil => intro t1; simp
    | cons m ms ih =>
      intro t1
      rw [List.foldl_cons, ih]
      simp [Session.Send, deliveries_append, deliveries]
  exact key registry.members t

/-- C4: on the display driver and the event bus of the spec, for every manager, registry,
width, height and rate: when `ChangeScreenSize(width, height, rate)` returns nil, a
following `GetScreenSize()` returns `{width, height, rate}`, also after any sequence of
input and keyboard requests in between, and the events the call published reach every
registered session as one `SCREEN_SIZE_CHANGE {width, height, rate}` each, and nothing
else is delivered. -/
theorem ChangeScreenSize_then_GetScreenSize (registry : SessionManagerCtx)
    (manager : DesktopManagerCtx) (width height rate : Int) (d : Display XDisplay)
    (ops : List Op) (t : Trace)
    (hok : (manager.ChangeScreenSize specXorg width height rate d).1 = none) :
    ((manager.ChangeScreenSize specXorg width height rate d).2.1.GetScreenSize specXorg
        (manager.ChangeScreenSize specXorg width height rate d).2.2).1 =
      some { Width := width, Height := height, Rate := rate } ∧
    ((manager.ChangeScreenSize specXorg width height rate d).2.1.GetScreenSize specXorg
        (runOps (facadeStep specXorg (manager.ChangeScreenSize specXorg width height rate d).2.1)
          ops (manager.ChangeScreenSize specXorg width height rate d).2.2).2).1 =
      some { Width := width, Height := height, Rate := rate } ∧
    deliveries (EventBus.publishAll registry
        ((manager.ChangeScreenSize specXorg width height rate d).2.1.emmiter.emitted.drop
          manager.emmiter.emitted.length) t) =
      deliveries t ++ registry.members.map (fun s => (s, Message.screen
        { Event := event.SCREEN_SIZE_CHANGE, Width := width, Height := height
          Rate := rate })) := by
  have hdrv : (specXorg.ChangeScreenSize width height rate d.state).1 = none := by
    cases hres : (specXorg.ChangeScreenSize width height rate d.state).1 with
    | none => rfl
    | some e =>
      simp [DesktopManagerCtx.ChangeScreenSize, xorg.ChangeScreenSize, hres] at hok
  have hmem : ({ Width := width, Height := height, Rate := rate } : ScreenSize) ∈
      d.state.available := by
    by_contra hno
    simp [specXorg, hno] at hdrv
  have hst : (manager.ChangeScreenSize specXorg width height rate d).2.2.state.current =
      { Width := width, Height := height, Rate := rate } := by
    simp [DesktopManagerCtx.ChangeScreenSize, xorg.ChangeScreenSize, hdrv]
    simp [specXorg, hmem]
  have hem : (manager.ChangeScreenSize specXorg width height rate d).2.1.emmiter.emitted =
      manager.emmiter.emitted ++
        [{ name := "screen_size_change", args := [width, height, rate] }] :=
    (ChangeScreenSize_success_emits_aux specXorg manager width height rate d hdrv)
  have hget : ∀ (m : DesktopManagerCtx) (d1 : Display XDisplay),
      (m.GetScreenSize specXorg d1).1 = some d1.state.current := fun _ _ => rfl
  refine ⟨?_, ?_, ?_⟩
  · rw [hget, hst]
  · rw [hget, specXorg_runOps_state, hst]
  · rw [hem, List.drop_left]
    simp only [EventBus.publishAll, List.foldl_cons, List.foldl_nil]
    exact deliveries_publish_screen registry width height rate t

/-- Witness for C4: `ChangeScreenSize(1920,1080,60)` on the sample display, then a pointer
move and a key press, then `GetScreenSize()`; the three registered sessions each get the
event. -/
theorem ChangeScreenSize_then_GetScreenSize_witness :
    (sampleManager.ChangeScreenSize specXorg 1920 1080 60 sampleDisplay).1 = none ∧
    ((sampleManager.ChangeScreenSize specXorg 1920 1080 60 sampleDisplay).2.1.GetScreenSize
        specXorg (sampleManager.ChangeScreenSize specXorg 1920 1080 60 sampleDisplay).2.2).1 =
      some { Width := 1920, Height := 1080, Rate := 60 } ∧
    deliveries (EventBus.publishAll sampleRegistry
        ((sampleManager.ChangeScreenSize specXorg 1920 1080 60
          sampleDisplay).2.1.emmiter.emitted.drop sampleManager.emmiter.emitted.length) []) =
      deliveries [] ++ sampleRegistry.members.map (fun s => (s, Message.screen
        { Event := event.SCREEN_SIZE_CHANGE, Width := 1920, Height := 1080, Rate := 60 })) :=
  ⟨by decide,
    (ChangeScreenSize_then_GetScreenSize sampleRegistry sampleManager 1920 1080 60
      sampleDisplay [Op.Move 10 20, Op.KeyDown 65] [] (by decide)).1,
    (ChangeScreenSize_then_GetScreenSize sampleRegistry sampleManager 1920 1080 60
      sampleDisplay [Op.Move 10 20, Op.KeyDown 65] [] (by decide)).2.2⟩

/-! ## Claims on `serve.go` -/

/-- C8: the comment above the test in `Init` and in `PreRun` reads "legacy if explicitly
enabled or if unspecified and legacy config is found", so with `legacy` unspecified and no
legacy config present no `InitV2` and no `SetV2` should run.  The code does otherwise: with
nothing at all set in the configuration (`legacy` is not set, reads false, and there is no
legacy setting to be found) `Init` returns nil after calling `InitV2`, and `PreRun` calls
`SetV2`, on Desktop, Capture, WebRTC, Member, Session and Server. -/
theorem legacy_unspecified_runs_v2 :
    plainViper.IsSet "legacy" nothingSet.state = false ∧
    plainViper.GetBool "legacy" nothingSet.state = false ∧
    nothingSet.state = [] ∧
    (serve.Init plainViper nothingSet).1 = none ∧
    (serve.Init plainViper nothingSet).2.calls =
      [ConfigCall.Init Config.Desktop, ConfigCall.Init Config.Capture,
        ConfigCall.Init Config.WebRTC, ConfigCall.Init Config.Member,
        ConfigCall.Init Config.Session, ConfigCall.Init Config.Plugins,
        ConfigCall.Init Config.Server,
        ConfigCall.InitV2 Config.Desktop, ConfigCall.InitV2 Config.Capture,
        ConfigCall.InitV2 Config.WebRTC, ConfigCall.InitV2 Config.Member,
        ConfigCall.InitV2 Config.Session, ConfigCall.InitV2 Config.Server] ∧
    (serve.PreRun plainViper nothingSet).calls =
      [ConfigCall.Set Config.Desktop, ConfigCall.Set Config.Capture,
        ConfigCall.Set Config.WebRTC, ConfigCall.Set Config.Member,
        ConfigCall.Set Config.Session, ConfigCall.Set Config.Plugins,
        ConfigCall.Set Config.Server,
        ConfigCall.SetV2 Config.Desktop, ConfigCall.SetV2 Config.Capture,
        ConfigCall.SetV2 Config.WebRTC, ConfigCall.SetV2 Config.Member,
        ConfigCall.SetV2 Config.Session, ConfigCall.SetV2 Config.Server] := by
  decide

/-- The stop calls of two lists of calls in a row. -/
theorem stoppedOrder_append (a b : List ManagerCall) :
    stoppedOrder (a ++ b) = stoppedOrder a ++ stoppedOrder b := by
  induction a with
  | nil => rfl
  | cons x xs ih => cases x <;> simp [stoppedOrder, ih]

/-- The start calls of two lists of calls in a row. -/
theorem startedOrder_append (a b : List ManagerCall) :
    startedOrder (a ++ b) = startedOrder a ++ startedOrder b := by
  induction a with
  | nil => rfl
  | cons x xs ih => cases x <;> simp [startedOrder, ih]

/-- The creations of two lists of calls in a row. -/
theorem createdOrder_append (a b : List ManagerCall) :
    createdOrder (a ++ b) = createdOrder a ++ createdOrder b := by
  induction a with
  | nil => rfl
  | cons x xs ih => cases x <;> simp [createdOrder, ih]

/-- C10: whatever the stop operations answer, `Shutdown` attempts seven of them, in the
order http, plugins, webSocket, webRTC, capture, desktop, member: each manager with a stop
operation exactly once, the session and api managers never.  When `Start` returns (the
member manager connected), it has started member, desktop, capture, webRTC, webSocket,
plugins, http in this order, which is also the order in which it created the managers
that have a stop operation; so `Shutdown` stops the managers in exactly the reverse of
that order. -/
theorem shutdown_reverses_start (env : ManagerEnv) (t : List ManagerCall)
    (hconn : env.Connect Manager.member = none) :
    stoppedOrder (serve.Shutdown env t) =
      stoppedOrder t ++ [Manager.http, Manager.plugins, Manager.webSocket, Manager.webRTC,
        Manager.capture, Manager.desktop, Manager.member] ∧
    (∀ m : Manager, (stoppedOrder (serve.Shutdown env [])).count m
      = if m.hasStop = true then 1 else 0) ∧
    serve.Start env t = Ended.returned (serve.Start env t).calls ∧
    startedOrder (serve.Start env t).calls =
      startedOrder t ++ [Manager.member, Manager.desktop, Manager.capture, Manager.webRTC,
        Manager.webSocket, Manager.plugins, Manager.http] ∧
    (createdOrder (serve.Start env []).calls).filter Manager.hasStop =
      startedOrder (serve.Start env []).calls ∧
    stoppedOrder (serve.Shutdown env []) = (startedOrder (serve.Start env []).calls).reverse := by
  have hstop : ∀ t1 : List ManagerCall, stoppedOrder (serve.Shutdown env t1) =
      stoppedOrder t1 ++ [Manager.http, Manager.plugins, Manager.webSocket, Manager.webRTC,
        Manager.capture, Manager.desktop, Manager.member] := by
    intro t1
    simp [serve.Shutdown, stoppedOrder_append, stoppedOrder]
  have hstart : ∀ t1 : List ManagerCall, startedOrder (serve.Start env t1).calls =
      startedOrder t1 ++ [Manager.member, Manager.desktop, Manager.capture, Manager.webRTC,
        Manager.webSocket, Manager.plugins, Manager.http] := by
    intro t1
    simp [serve.Start, hconn, Ended.calls, startedOrder_append, startedOrder]
  refine ⟨hstop t, ?_, ?_, hstart t, ?_, ?_⟩
  · intro m
    rw [hstop]
    cases m <;> decide
  · simp [serve.Start, hconn, Ended.calls]
  · rw [hstart]
    simp [serve.Start, hconn, Ended.calls, createdOrder, Manager.hasStop, startedOrder]
  · rw [hstop, hstart]
    simp [stoppedOrder, startedOrder]

/-- Witness for C10: the member manager connects, and the http and capture managers fail
to shut down; all seven stop operations are still attempted, in reverse start order. -/
theorem shutdown_reverses_start_witness :
    failingStops.Connect Manager.member = none ∧
    failingStops.Shutdown Manager.http = some { Error := "timeout" } ∧
    stoppedOrder (serve.Shutdown failingStops []) =
      stoppedOrder [] ++ [Manager.http, Manager.plugins, Manager.webSocket, Manager.webRTC,
        Manager.capture, Manager.desktop, Manager.member] ∧
    stoppedOrder (serve.Shutdown failingStops []) =
      (startedOrder (serve.Start failingStops []).calls).reverse :=
  ⟨rfl, by decide, (shutdown_reverses_start failingStops [] rfl).1,
    (shutdown_reverses_start failingStops [] rfl).2.2.2.2.2⟩

end Neko
